import Mathlib

/-!
# `static/js/rk.js`: input-mode tracker, e-mail revealer, PDF modal

A shallow embedding of the script `src/static/js/rk.js`.

* DOM elements are references (`Node`); the mutable page state (`State`) holds, per
  element, its class list and its content attributes, the focused element
  (`document.activeElement`) and the closure variable `lastFocus`.
* `frame.src = v` and `link.href = v` are reflected attributes: they are modelled as
  writes of the content attributes `src` and `href`.
* `el.focus()` is modelled as moving focus to `el` (every element the script focuses is
  a link with a target, a button or an element that held focus before).
* A handler that dereferences `null` stops with a `TypeError`, one that reads an
  identifier bound nowhere stops with a `ReferenceError`; the writes it made before that
  point stay in the state (`Run.completion` records how the handler ended).
* The e-mail control lives in a small DOM tree (`Tree`): the children of its parent
  element, so that the output container may lie beside the control, inside it, or be the
  control itself.
* Line numbers in the comments are those of `src/static/js/rk.js`.
-/

namespace Rk

/-! ## The page state -/

/-- A reference to a DOM element. -/
abbrev Node := Nat

/-- The mutable state the script reads and writes. -/
structure State where
  /-- Tag name of an element (lower case). -/
  tag : Node → String
  /-- The tokens of `el.classList`. -/
  classList : Node → List String
  /-- The content attributes: `el.getAttribute(k)`, `none` for JavaScript `null`. -/
  attr : Node → String → Option String
  /-- The descendants of an element, in document order. -/
  descendants : Node → List Node
  /-- The value of `document.activeElement`. -/
  activeElement : Option Node
  /-- The closure variable `lastFocus` (line 68). -/
  lastFocus : Option Node

/-- DOM `el.classList.contains(c)`. -/
def State.hasClass (s : State) (el : Node) (c : String) : Bool :=
  decide (c ∈ s.classList el)

/-- DOM `el.classList.add(c)`: a token is never stored twice. -/
def State.addClass (s : State) (el : Node) (c : String) : State :=
  let tokens := if c ∈ s.classList el then s.classList el else s.classList el ++ [c]
  { s with classList := Function.update s.classList el tokens }

/-- DOM `el.classList.remove(c)`. -/
def State.removeClass (s : State) (el : Node) (c : String) : State :=
  let tokens := (s.classList el).filter (fun t => decide (t ≠ c))
  { s with classList := Function.update s.classList el tokens }

/-- DOM `el.classList.toggle(c, force)`: adds the token when `force` is true, removes it
otherwise. -/
def State.toggleClass (s : State) (el : Node) (c : String) (force : Bool) : State :=
  if force then s.addClass el c else s.removeClass el c

/-- DOM `el.setAttribute(k, v)`. -/
def State.setAttribute (s : State) (el : Node) (k v : String) : State :=
  { s with attr := Function.update s.attr el (Function.update (s.attr el) k (some v)) }

/-- DOM `el.focus()`: focus moves to the element. -/
def State.focus (s : State) (el : Node) : State :=
  { s with activeElement := some el }

/-! ## 1. Input-mode tracker (lines 10-19) -/

/-- Function `setKeyboardMode(on)` (lines 10-12): `body.classList.toggle('rk-keyboard', on)`;
the parameter `on` is called `enable` here. -/
def setKeyboardMode (body : Node) (enable : Bool) (s : State) : State :=
  s.toggleClass body "rk-keyboard" enable

/-- The keyboard-mode flag: the body carries the marker class `rk-keyboard`. -/
def keyboardMode (body : Node) (s : State) : Bool :=
  s.hasClass body "rk-keyboard"

/-- A key-down event: `e.key`, `e.code`, `e.shiftKey`. -/
structure KeyEvent where
  key : String
  code : String
  shiftKey : Bool

/-- The `keydown` listener of lines 14-16. -/
def onKeydownInputMode (body : Node) (e : KeyEvent) (s : State) : State :=
  if e.key = "Tab" then setKeyboardMode body true s else s

/-- The `mousedown` listener of line 18. -/
def onMousedown (body : Node) (s : State) : State :=
  setKeyboardMode body false s

/-- The `touchstart` listener of line 19. -/
def onTouchstart (body : Node) (s : State) : State :=
  setKeyboardMode body false s

/-! ## 2. E-mail revealer (lines 26-55) -/

/-- A DOM node of the page around an e-mail control: a text node, or an element with its
tag name, class list, content attributes and child nodes. -/
inductive Tree where
  | text (data : String)
  | elem (tag : String) (classList : List String) (attrs : List (String × String))
      (children : List Tree)

/-- Whether a node is a link element. -/
def Tree.isLink : Tree → Bool
  | .text _ => false
  | .elem tag _ _ _ => tag == "a"

mutual
/-- The child nodes of the first element with class `rk-email-out` in a subtree (the
root included), in document order; `none` when there is none. -/
def Tree.firstOut : Tree → Option (List Tree)
  | .text _ => none
  | .elem _ classList _ children =>
    if "rk-email-out" ∈ classList then some children else Forest.firstOut children
/-- The child nodes of the first element with class `rk-email-out` in a list of
subtrees, in document order. -/
def Forest.firstOut : List Tree → Option (List Tree)
  | [] => none
  | t :: ts =>
    match Tree.firstOut t with
    | some found => some found
    | none => Forest.firstOut ts
end

mutual
/-- Replaces the child nodes of the first element with class `rk-email-out` in a
subtree; a subtree without such an element is returned as it is. -/
def Tree.setFirstOut (new : List Tree) : Tree → Tree
  | .text data => .text data
  | .elem tag classList attrs children =>
    if "rk-email-out" ∈ classList then .elem tag classList attrs new
    else .elem tag classList attrs (Forest.setFirstOut new children)
/-- Replaces the child nodes of the first element with class `rk-email-out` in a list of
subtrees. -/
def Forest.setFirstOut (new : List Tree) : List Tree → List Tree
  | [] => []
  | t :: ts =>
    match Tree.firstOut t with
    | some _ => Tree.setFirstOut new t :: ts
    | none => t :: Forest.setFirstOut new ts
end

mutual
/-- DOM `node.textContent`: the text of a subtree, in document order. -/
def Tree.textContent : Tree → String
  | .text data => data
  | .elem _ _ _ children => Forest.textContent children
/-- The text of a list of subtrees, in document order. -/
def Forest.textContent : List Tree → String
  | [] => ""
  | t :: ts => Tree.textContent t ++ Forest.textContent ts
end

/-- An e-mail control (`btn`). -/
structure EmailControl where
  /-- Tag name of the control. -/
  tag : String
  /-- The tokens of `btn.classList`. -/
  classList : List String
  /-- Result of `getAttribute('data-rk-email-user')`, `none` for `null`. -/
  user : Option String
  /-- Result of `getAttribute('data-rk-email-domain')`. -/
  domain : Option String
  /-- Result of `getAttribute('data-rk-email-tld')`. -/
  tld : Option String
  /-- The `disabled` property of the control. -/
  disabled : Bool
  /-- The property named `disable` of the control object (`none`: never assigned). -/
  disable : Option Bool
  /-- The child nodes of the control; its visible label is their text. -/
  children : List Tree

/-- The visible label of a control, `btn.textContent`. -/
def EmailControl.textContent (b : EmailControl) : String :=
  Forest.textContent b.children

/-- The other children of the control's parent element: those before the control and
those after it, in document order. -/
structure Siblings where
  before : List Tree
  after : List Tree

/-- The part of the page the click handler of a control touches: the control and, when
`btn.parentElement` is not `null`, the other children of that parent. -/
structure EmailPage where
  btn : EmailControl
  siblings : Option Siblings

/-- Where the element that line 38 finds lies: in a sibling subtree before the control,
the control itself, inside the control, or in a sibling subtree after it. -/
inductive OutPlace where
  | before
  | self
  | inside
  | after
deriving DecidableEq, Repr

/-- Result of `btn.parentElement?.querySelector('.rk-email-out')` (line 38): the first
element with class `rk-email-out` among the descendants of the control's parent, in
document order, given by its place and its child nodes; `none` when there is no parent
or no such element. -/
def queryOut (p : EmailPage) : Option (OutPlace × List Tree) :=
  match p.siblings with
  | none => none
  | some sib =>
    match Forest.firstOut sib.before with
    | some found => some (.before, found)
    | none =>
      if "rk-email-out" ∈ p.btn.classList then some (.self, p.btn.children)
      else
        match Forest.firstOut p.btn.children with
        | some found => some (.inside, found)
        | none =>
          match Forest.firstOut sib.after with
          | some found => some (.after, found)
          | none => none

/-- The child nodes of the output container the page holds, if any. -/
def outChildren (p : EmailPage) : Option (List Tree) :=
  (queryOut p).map Prod.snd

/-- Replaces the child nodes of the element line 38 found at the given place. -/
def writeOut (p : EmailPage) (place : OutPlace) (new : List Tree) : EmailPage :=
  match place with
  | .before =>
    let write : Siblings → Siblings :=
      fun sib => { sib with before := Forest.setFirstOut new sib.before }
    { p with siblings := p.siblings.map write }
  | .self => { p with btn := { p.btn with children := new } }
  | .inside =>
    { p with btn := { p.btn with children := Forest.setFirstOut new p.btn.children } }
  | .after =>
    let write : Siblings → Siblings :=
      fun sib => { sib with after := Forest.setFirstOut new sib.after }
    { p with siblings := p.siblings.map write }

/-- JavaScript `v || ''` for `v` a string or `null`. -/
def orEmpty : Option String → String
  | none => ""
  | some v => if v = "" then "" else v

/-- The address built at line 36. -/
def emailAddr (b : EmailControl) : String :=
  orEmpty b.user ++ "@" ++ orEmpty b.domain ++ "." ++ orEmpty b.tld

/-- The link element built at lines 42-44 for an address. -/
def emailLink (addr : String) : Tree :=
  Tree.elem "a" [] [("href", "mailto:" ++ addr)] [Tree.text addr]

/-- The click handler of lines 31-51. -/
def emailClick (p : EmailPage) : EmailPage :=
  let addr := emailAddr p.btn
  match queryOut p with
  | none => p                                                   -- line 39
  | some (place, _) =>
    let a := emailLink addr                                     -- lines 42-44
    -- line 46, `out.innerHTML = ' '`, leaves one blank text node; line 47 appends `a`
    let p := writeOut p place ([Tree.text " "] ++ [a])
    { p with btn := { p.btn with
        disable := some true                                    -- line 49
        children := [Tree.text "E-Mail shown"] } }              -- line 50

/-- The selection of line 27: `querySelectorAll('rk-email-reveal')` is a type selector,
it picks the elements whose tag name is `rk-email-reveal`. -/
def wireEmailReveal (page : List EmailPage) : List EmailPage :=
  page.filter (fun p => p.btn.tag == "rk-email-reveal")

/-- A click on an element: the handler runs exactly when line 27 selected the element.
An `rk-email-reveal` element is not a form control, so it receives the click whatever
its `disabled` property holds. -/
def clickEmailControl (p : EmailPage) : EmailPage :=
  if p.btn.tag == "rk-email-reveal" then emailClick p else p

/-! ## 3. PDF modal (lines 60-149) -/

/-- How a run of a function or handler ended: normally, with the `TypeError` raised by
a property access on `null` at the given source line, or with the `ReferenceError`
raised by reading an unbound identifier at the given source line. -/
inductive Completion where
  | normal
  | typeError (line : Nat)
  | referenceError (line : Nat)
deriving DecidableEq, Repr

/-- The result of running a handler on an event: the state it leaves, whether it called
`e.preventDefault()`, and how it ended. -/
structure Run where
  st : State
  defaultPrevented : Bool
  completion : Completion

/-- What the document answers to the lookups the script makes while loading:
`document.body` (line 2), the five `getElementById` calls (lines 60-64) and
`modal.querySelector('.rk-modal-dialog')` (line 111); `none` is `null`. -/
structure Lookups where
  body : Option Node
  modal : Option Node
  frame : Option Node
  btnClose : Option Node
  linkDownload : Option Node
  linkOpen : Option Node
  dialog : Option Node
deriving DecidableEq, Repr

/-- The constants the modal's functions close over (lines 2, 60-64, 111). -/
structure Env where
  body : Node
  modal : Option Node
  frame : Option Node
  btnClose : Option Node
  linkDownload : Option Node
  linkOpen : Option Node
  dialog : Option Node
deriving DecidableEq, Repr

/-- The condition of the guard at line 66,
`!modal || frame || !btnClose || !linkDownload || !linkOpen`: the script returns when it
holds. -/
def guardReturns (d : Lookups) : Bool :=
  !d.modal.isSome || d.frame.isSome || !d.btnClose.isSome || !d.linkDownload.isSome
    || !d.linkOpen.isSome

/-- The listeners in place once the script has run: those of the input-mode tracker on
the document (always, they need only the body), and those of the modal (lines 98-149)
with the constants they close over, `none` when the script returned at line 66. -/
structure Wiring where
  body : Node
  modal : Option Env
deriving DecidableEq, Repr

/-- The script as a whole: `none` when it returns at line 3 (no body), otherwise the
listeners it attached. -/
def script (d : Lookups) : Option Wiring :=
  match d.body with
  | none => none
  | some body =>
    if guardReturns d then some { body := body, modal := none }
    else
      let env : Env :=
        { body := body, modal := d.modal, frame := d.frame, btnClose := d.btnClose,
          linkDownload := d.linkDownload, linkOpen := d.linkOpen, dialog := d.dialog }
      some { body := body, modal := some env }

/-- JavaScript `a || b` for element references. -/
def orElse (a b : Option Node) : Option Node :=
  match a with
  | some x => some x
  | none => b

/-- Function `openPdfModal(pdfUrl, triggerEl)` (lines 72-84). A `null` constant makes
the statement that dereferences it stop the function with a `TypeError`. -/
def openPdfModal (env : Env) (pdfUrl : String) (triggerEl : Option Node) (s : State) :
    State × Completion :=
  let s := { s with lastFocus := orElse triggerEl s.activeElement }      -- line 73
  match env.frame with
  | none => (s, .typeError 75)
  | some frame =>
  let s := s.setAttribute frame "src" pdfUrl                             -- line 75
  match env.linkDownload with
  | none => (s, .typeError 76)
  | some linkDownload =>
  let s := s.setAttribute linkDownload "href" pdfUrl                     -- line 76
  match env.linkOpen with
  | none => (s, .typeError 77)
  | some linkOpen =>
  let s := s.setAttribute linkOpen "href" pdfUrl                         -- line 77
  match env.modal with
  | none => (s, .typeError 79)
  | some modal =>
  let s := s.addClass modal "is-open"                                    -- line 79
  let s := s.setAttribute modal "aria-hiden" "false"                     -- line 80
  let s := s.addClass env.body "rk-modal-open"                           -- line 81
  match env.btnClose with
  | none => (s, .typeError 83)
  | some btnClose => (s.focus btnClose, .normal)                         -- line 83

/-- Function `closePdfModal()` (lines 86-97). -/
def closePdfModal (env : Env) (s : State) : State × Completion :=
  match env.modal with
  | none => (s, .typeError 87)
  | some modal =>
  let s := s.removeClass modal "is-open"                                 -- line 87
  let s := s.setAttribute modal "aria-hidden" "true"                     -- line 88
  let s := s.removeClass env.body "rk-modal-open"                        -- line 89
  match env.frame with
  | none => (s, .typeError 91)
  | some frame =>
  let s := s.setAttribute frame "src" ""                                 -- line 91
  -- lines 93-95: every element has a `focus` method
  let s := match s.lastFocus with
    | some el => s.focus el
    | none => s
  ({ s with lastFocus := none }, .normal)                                -- line 96

/-- Whether `pat` occurs in `str` as a contiguous run of characters. -/
def hasInfix (pat : List Char) : List Char → Bool
  | [] => pat.isPrefixOf []
  | c :: cs => pat.isPrefixOf (c :: cs) || hasInfix pat cs

/-- The selector of line 99,
`a.rk-menu-link[href$=".pdf"], a.rk-menu-link[href*=".pdf"]`. -/
def matchesPdfLink (s : State) (el : Node) : Bool :=
  s.tag el == "a" && s.hasClass el "rk-menu-link" &&
    match s.attr el "href" with
    | none => false
    | some href =>
      ".pdf".toList.isSuffixOf href.toList || hasInfix ".pdf".toList href.toList

/-- A click event, given by its propagation path: `e.target` first, then its ancestors
from the innermost to the root element. -/
structure ClickEvent where
  path : List Node

/-- Result of `e.target.closest(selector)` for the selector of line 99. -/
def closestPdfLink (s : State) (e : ClickEvent) : Option Node :=
  e.path.find? (matchesPdfLink s)

/-- The document's `click` listener (lines 98-104). The `href` of an element the
selector matched is never `null`; the fallback is what a `null` assigned to `src`
would read as. -/
def onClickDocument (env : Env) (e : ClickEvent) (s : State) : Run :=
  match closestPdfLink s e with
  | none => { st := s, defaultPrevented := false, completion := .normal }   -- line 100
  | some a =>
    let r := openPdfModal env ((s.attr a "href").getD "null") (some a) s    -- line 103
    { st := r.1, defaultPrevented := true, completion := r.2 }             -- line 102

/-- The close control's `click` listener (lines 106-109): its body holds two comments
and no statement. -/
def onClickClose (s : State) : State := s

/-- Whether the dialog's `click` listener (lines 112-114) runs for this event, that is,
whether it calls `e.stopPropagation()`: the inner dialog box exists and lies on the
event's path. -/
def dialogStops (env : Env) (e : ClickEvent) : Bool :=
  match env.dialog with
  | none => false
  | some dialog => decide (dialog ∈ e.path)

/-- A click, dispatched to the listeners the script attached (bubbling from the target
to the document): the close control's listener when the control is on the path, the
dialog's listener, and the document's listener unless propagation was stopped before
the event reached the document. -/
def dispatchClick (w : Wiring) (e : ClickEvent) (s : State) : Run :=
  match w.modal with
  | none => { st := s, defaultPrevented := false, completion := .normal }
  | some env =>
    let s := match env.btnClose with
      | some btnClose => if btnClose ∈ e.path then onClickClose s else s
      | none => s
    if dialogStops env e then { st := s, defaultPrevented := false, completion := .normal }
    else onClickDocument env e s

/-- The selector of line 70,
`a[href], button:not([disabled]), [tabindex]:not([tabindex="-1"])`. -/
def matchesFocusable (s : State) (el : Node) : Bool :=
  (s.tag el == "a" && (s.attr el "href").isSome)
    || (s.tag el == "button" && (s.attr el "disabled").isNone)
    || ((s.attr el "tabindex").isSome && s.attr el "tabindex" != some "-1")

/-- Modelled from the spec: `getFocusable`, called at line 129, is defined nowhere in
`src/static/js/rk.js`. The spec has it "compute the ordered set of currently focusable
descendants of the container", matching links with a target, non-disabled buttons and
elements with an explicit tab order; the match is the selector kept at line 70. It
stands for a helper that another script of the page would have to supply. -/
def getFocusable (container : Node) (s : State) : List Node :=
  (s.descendants container).filter (matchesFocusable s)

/-- JavaScript `b === str` for a boolean `b` and a string `str`: operands of different
types are never strictly equal. -/
def boolStrictEqString (_b : Bool) (_str : String) : Bool := false

/-- JavaScript `!str` for a string: true exactly for the empty string. -/
def notString (str : String) : Bool := decide (str = "")

/-- The document's `keydown` listener of lines 116-149. The script calls `getFocusable`
at line 129 and defines no such function: `helper` is what the identifier is bound to
when line 129 runs, `none` for the script as it stands (nothing else on the page defines
a global of that name), in which case the call raises a `ReferenceError` before any
`preventDefault()` or `focus()`. -/
def onKeydownModal (helper : Option (Node → State → List Node)) (env : Env) (e : KeyEvent)
    (s : State) : Run :=
  match env.modal with
  | none => { st := s, defaultPrevented := false, completion := .typeError 117 }
  | some modal =>
  if !s.hasClass modal "is-open" then
    { st := s, defaultPrevented := false, completion := .normal }           -- line 117
  else
  let key := e.key
  let code := e.code
  if key = "Escape" || code = "Escape" then                                 -- line 122
    let r := closePdfModal env s                                            -- line 124
    { st := r.1, defaultPrevented := true, completion := r.2 }             -- line 123
  else
  if boolStrictEqString (notString key) "Tab" || code = "Tab" then          -- line 127
    { st := s, defaultPrevented := false, completion := .normal }
  else
  match helper with                                                         -- line 129
  | none => { st := s, defaultPrevented := false, completion := .referenceError 129 }
  | some getFocusable =>
  match getFocusable modal s with
  | [] => { st := s, defaultPrevented := true, completion := .normal }      -- lines 130-133
  | f :: fs =>
  let first := f                                                            -- line 135
  let last := (f :: fs).getLast (List.cons_ne_nil f fs)                     -- line 136
  if e.shiftKey then                                                        -- line 138
    if s.activeElement = some first then                                    -- line 139
      { st := s.focus last, defaultPrevented := true, completion := .normal }
    else { st := s, defaultPrevented := false, completion := .normal }
  else
    if s.activeElement = some last then                                     -- line 144
      { st := s.focus first, defaultPrevented := true, completion := .normal }
    else { st := s, defaultPrevented := false, completion := .normal }

/-- A key-down event, dispatched to the document's listeners in the order the script
attached them: the input-mode tracker's (line 14), then the modal's (line 116). -/
def dispatchKeydown (helper : Option (Node → State → List Node)) (w : Wiring)
    (e : KeyEvent) (s : State) : Run :=
  let s := onKeydownInputMode w.body e s
  match w.modal with
  | none => { st := s, defaultPrevented := false, completion := .normal }
  | some env => onKeydownModal helper env e s

/-! ## Event sequences for the input-mode tracker -/

/-- The input events the tracker listens for. -/
inductive InputEvent where
  | keydown (e : KeyEvent)
  | mousedown
  | touchstart

/-- One input event, dispatched to every listener the script attached for it. -/
def dispatchInput (helper : Option (Node → State → List Node)) (w : Wiring) :
    InputEvent → State → State
  | .keydown e, s => (dispatchKeydown helper w e s).st
  | .mousedown, s => onMousedown w.body s
  | .touchstart, s => onTouchstart w.body s

/-- A finite sequence of input events, dispatched in order. -/
def runInputs (helper : Option (Node → State → List Node)) (w : Wiring)
    (evs : List InputEvent) (s : State) : State :=
  evs.foldl (fun st ev => dispatchInput helper w ev st) s

/-- The mode a relevant event sets: `some true` for a Tab key-down, `some false` for a
mouse-down or touch-start, `none` for an event that is not relevant. -/
def relevantMode : InputEvent → Option Bool
  | .keydown e => if e.key = "Tab" then some true else none
  | .mousedown => some false
  | .touchstart => some false

/-- The mode set by the most recent relevant event of a sequence, `none` when the
sequence holds no relevant event. -/
def lastRelevant : List InputEvent → Option Bool
  | [] => none
  | ev :: evs =>
    match lastRelevant evs with
    | some mode => some mode
    | none => relevantMode ev

/-! ## Concrete pages -/

/-- The constants of the modal's functions when every lookup of lines 60-64 found its
element. -/
def boundEnv (body modal frame btnClose linkDownload linkOpen : Node)
    (dialog : Option Node) : Env :=
  { body := body, modal := some modal, frame := some frame, btnClose := some btnClose,
    linkDownload := some linkDownload, linkOpen := some linkOpen, dialog := dialog }

/-- A sample page: body `0`, modal container `1`, embedded frame `2`, close control `3`,
download link `4`, open-in-new-tab link `5`, inner dialog box `6` (holding `2` to `5`),
a menu link `7` (`<a class="rk-menu-link" href="/menu.pdf">`) and a search field `8`
that holds focus. The modal is closed. -/
def samplePage : State where
  tag := fun el =>
    match el with
    | 0 => "body"
    | 2 => "iframe"
    | 3 => "button"
    | 4 => "a"
    | 5 => "a"
    | 7 => "a"
    | 8 => "input"
    | _ => "div"
  classList := fun el =>
    match el with
    | 6 => ["rk-modal-dialog"]
    | 7 => ["rk-menu-link"]
    | _ => []
  attr := fun el k =>
    match el with
    | 1 => if k = "aria-hidden" then some "true" else none
    | 4 => if k = "href" then some "#" else none
    | 5 => if k = "href" then some "#" else none
    | 7 => if k = "href" then some "/menu.pdf" else none
    | _ => none
  descendants := fun el =>
    match el with
    | 0 => [8, 7, 1, 6, 3, 4, 5, 2]
    | 1 => [6, 3, 4, 5, 2]
    | 6 => [3, 4, 5, 2]
    | _ => []
  activeElement := some 8
  lastFocus := none

/-- The sample page with the modal open as `openPdfModal` would leave it were the frame
bound: markers set, focus on the close control, the menu link recorded. -/
def sampleOpenPage : State :=
  { samplePage with
    classList := fun el =>
      match el with
      | 0 => ["rk-modal-open"]
      | 1 => ["is-open"]
      | 6 => ["rk-modal-dialog"]
      | 7 => ["rk-menu-link"]
      | _ => []
    activeElement := some 3
    lastFocus := some 7 }

/-- The open sample page with focus on the last focusable element of the container, the
open-in-new-tab link `5`. -/
def sampleOpenPageOnLast : State :=
  { sampleOpenPage with activeElement := some 5 }

/-- The sample page with the keyboard-mode marker already on the body. -/
def sampleKeyboardPage : State :=
  { samplePage with
    classList := fun el =>
      match el with
      | 0 => ["rk-keyboard"]
      | 6 => ["rk-modal-dialog"]
      | 7 => ["rk-menu-link"]
      | _ => [] }

/-- The lookups of a page that has all five required elements and the dialog box. -/
def fullLookups : Lookups :=
  { body := some 0, modal := some 1, frame := some 2, btnClose := some 3,
    linkDownload := some 4, linkOpen := some 5, dialog := some 6 }

/-- The lookups of a page that lacks the embedded frame and has everything else. -/
def framelessLookups : Lookups :=
  { fullLookups with frame := none }

/-- The constants of the modal's functions on a page with all five elements. -/
def fullEnv : Env :=
  { body := 0, modal := some 1, frame := some 2, btnClose := some 3,
    linkDownload := some 4, linkOpen := some 5, dialog := some 6 }

/-- The constants of the modal's functions on a page without the embedded frame. -/
def framelessEnv : Env :=
  { fullEnv with frame := none }

/-- The Escape key, pressed without Shift. -/
def escapeKey : KeyEvent := { key := "Escape", code := "Escape", shiftKey := false }

/-- The Enter key, pressed without Shift. -/
def enterKey : KeyEvent := { key := "Enter", code := "Enter", shiftKey := false }

/-- The listeners the script attaches on the page without the embedded frame. -/
def framelessWiring : Wiring := { body := 0, modal := some framelessEnv }

/-- The listeners the script attaches on the page with all five elements: none for the
modal. -/
def fullWiring : Wiring := { body := 0, modal := none }

/-- A click on the menu link `7` of the sample page. -/
def clickMenuLink : ClickEvent := { path := [7, 0] }

/-- A click on the close control `3`, inside the dialog box. -/
def clickCloseControl : ClickEvent := { path := [3, 6, 1, 0] }

/-- A click on the backdrop: the target is the container `1` itself. -/
def clickBackdrop : ClickEvent := { path := [1, 0] }

/-- The control `info` / `example` / `org` labelled `Show e-mail`. -/
def sampleEmailControl : EmailControl :=
  { tag := "rk-email-reveal", classList := [], user := some "info",
    domain := some "example", tld := some "org", disabled := false, disable := none,
    children := [Tree.text "Show e-mail"] }

/-- The sample control followed by an empty output container, its sibling:
`<rk-email-reveal ...>Show e-mail</rk-email-reveal><span class="rk-email-out"></span>`. -/
def sampleEmailPage : EmailPage :=
  { btn := sampleEmailControl
    siblings := some { before := [], after := [Tree.elem "span" ["rk-email-out"] [] []] } }

/-- The sample control holding the empty output container itself:
`<rk-email-reveal ...>Show e-mail<span class="rk-email-out"></span></rk-email-reveal>`. -/
def sampleEmailPageInside : EmailPage :=
  { btn := { sampleEmailControl with
      children := [Tree.text "Show e-mail", Tree.elem "span" ["rk-email-out"] [] []] }
    siblings := some { before := [], after := [] } }

/-- The sample control carrying the class `rk-email-out` itself. -/
def sampleEmailPageSelf : EmailPage :=
  { btn := { sampleEmailControl with classList := ["rk-email-out"] }
    siblings := some { before := [], after := [] } }

end Rk

/-! # Theorems -/

namespace Rk

/-! ## Class lists, attributes and focus -/

theorem mem_classList_addClass (s : State) (el : Node) (c : String) (el2 : Node)
    (c2 : String) :
    c2 ∈ (s.addClass el c).classList el2 ↔ c2 ∈ s.classList el2 ∨ (el2 = el ∧ c2 = c) := by
  unfold State.addClass
  by_cases hel : el2 = el
  · subst hel
    by_cases hc : c ∈ s.classList el2
    · simp only [hc, if_true, Function.update_same]
      constructor
      · intro h; exact Or.inl h
      · rintro (h | ⟨-, rfl⟩)
        · exact h
        · exact hc
    · simp [hc]
  · simp [hel]

theorem mem_classList_removeClass (s : State) (el : Node) (c : String) (el2 : Node)
    (c2 : String) :
    c2 ∈ (s.removeClass el c).classList el2 ↔
      c2 ∈ s.classList el2 ∧ ¬ (el2 = el ∧ c2 = c) := by
  unfold State.removeClass
  by_cases hel : el2 = el
  · subst hel
    simp [List.mem_filter]
  · simp [hel]

@[simp] theorem classList_setAttribute (s : State) (el : Node) (k v : String) :
    (s.setAttribute el k v).classList = s.classList := rfl

@[simp] theorem classList_focus (s : State) (el : Node) :
    (s.focus el).classList = s.classList := rfl

@[simp] theorem attr_addClass (s : State) (el : Node) (c : String) :
    (s.addClass el c).attr = s.attr := rfl

@[simp] theorem attr_removeClass (s : State) (el : Node) (c : String) :
    (s.removeClass el c).attr = s.attr := rfl

@[simp] theorem attr_focus (s : State) (el : Node) : (s.focus el).attr = s.attr := rfl

@[simp] theorem activeElement_addClass (s : State) (el : Node) (c : String) :
    (s.addClass el c).activeElement = s.activeElement := rfl

@[simp] theorem activeElement_removeClass (s : State) (el : Node) (c : String) :
    (s.removeClass el c).activeElement = s.activeElement := rfl

@[simp] theorem activeElement_setAttribute (s : State) (el : Node) (k v : String) :
    (s.setAttribute el k v).activeElement = s.activeElement := rfl

@[simp] theorem activeElement_focus (s : State) (el : Node) :
    (s.focus el).activeElement = some el := rfl

@[simp] theorem lastFocus_addClass (s : State) (el : Node) (c : String) :
    (s.addClass el c).lastFocus = s.lastFocus := rfl

@[simp] theorem lastFocus_removeClass (s : State) (el : Node) (c : String) :
    (s.removeClass el c).lastFocus = s.lastFocus := rfl

@[simp] theorem lastFocus_setAttribute (s : State) (el : Node) (k v : String) :
    (s.setAttribute el k v).lastFocus = s.lastFocus := rfl

@[simp] theorem lastFocus_focus (s : State) (el : Node) :
    (s.focus el).lastFocus = s.lastFocus := rfl

theorem attr_setAttribute_self (s : State) (el : Node) (k v : String) :
    (s.setAttribute el k v).attr el k = some v := by
  simp [State.setAttribute]

theorem attr_setAttribute_of_key_ne (s : State) (el : Node) (k v : String) (el2 : Node)
    (k2 : String) (h : k2 ≠ k) :
    (s.setAttribute el k v).attr el2 k2 = s.attr el2 k2 := by
  unfold State.setAttribute
  by_cases hel : el2 = el
  · subst hel; simp [h]
  · simp [hel]

theorem attr_setAttribute_same_value (s : State) (el : Node) (k v : String) (el2 : Node)
    (k2 : String) (h : s.attr el2 k2 = some v) :
    (s.setAttribute el k v).attr el2 k2 = some v := by
  unfold State.setAttribute
  by_cases hel : el2 = el
  · subst hel
    by_cases hk : k2 = k
    · subst hk; simp
    · simp [hk, h]
  · simp [hel, h]

theorem hasClass_eq_true_iff (s : State) (el : Node) (c : String) :
    s.hasClass el c = true ↔ c ∈ s.classList el := by
  simp [State.hasClass]

/-! ## Input-mode tracker -/

theorem keyboardMode_setKeyboardMode (body : Node) (enable : Bool) (s : State) :
    keyboardMode body (setKeyboardMode body enable s) = enable := by
  cases enable
  · have h : ¬ ("rk-keyboard" ∈ (s.removeClass body "rk-keyboard").classList body) := by
      rw [mem_classList_removeClass]; simp
    simpa [keyboardMode, setKeyboardMode, State.toggleClass, State.hasClass] using h
  · have h : "rk-keyboard" ∈ (s.addClass body "rk-keyboard").classList body := by
      rw [mem_classList_addClass]; simp
    simpa [keyboardMode, setKeyboardMode, State.toggleClass, State.hasClass] using h

/-- The modal's close transition leaves the keyboard-mode marker alone. -/
theorem keyboardMode_closePdfModal (env : Env) (body : Node) (s : State) :
    keyboardMode body (closePdfModal env s).1 = keyboardMode body s := by
  have key : ∀ t : State, ("rk-keyboard" ∈ t.classList body ↔ "rk-keyboard" ∈ s.classList body)
      → keyboardMode body t = keyboardMode body s := by
    intro t ht
    simp [keyboardMode, State.hasClass, ht]
  unfold closePdfModal
  cases env.modal with
  | none => rfl
  | some modal =>
    cases env.frame with
    | none =>
      apply key
      simp [mem_classList_removeClass]
    | some frame =>
      apply key
      cases hl : s.lastFocus <;> simp [hl, mem_classList_removeClass]

/-- The modal's key-down listener leaves the keyboard-mode marker alone. -/
theorem keyboardMode_onKeydownModal (gf : Option (Node → State → List Node)) (env : Env)
    (e : KeyEvent) (body : Node) (s : State) :
    keyboardMode body (onKeydownModal gf env e s).st = keyboardMode body s := by
  unfold onKeydownModal
  cases env.modal with
  | none => rfl
  | some modal =>
    simp only
    split
    · rfl
    · split
      · exact keyboardMode_closePdfModal env body s
      · split
        · rfl
        · split
          · rfl
          · split
            · rfl
            · split <;> split <;> rfl

theorem keyboardMode_dispatchInput (gf : Option (Node → State → List Node)) (w : Wiring)
    (ev : InputEvent) (s : State) :
    keyboardMode w.body (dispatchInput gf w ev s) =
      (relevantMode ev).getD (keyboardMode w.body s) := by
  cases ev with
  | keydown e =>
    have h1 : keyboardMode w.body (onKeydownInputMode w.body e s) =
        (relevantMode (.keydown e)).getD (keyboardMode w.body s) := by
      unfold onKeydownInputMode relevantMode
      by_cases hk : e.key = "Tab"
      · simp [hk, keyboardMode_setKeyboardMode]
      · simp [hk]
    unfold dispatchInput dispatchKeydown
    cases w.modal with
    | none => exact h1
    | some env =>
      simp only
      rw [keyboardMode_onKeydownModal]
      exact h1
  | mousedown => simp [dispatchInput, onMousedown, relevantMode, keyboardMode_setKeyboardMode]
  | touchstart =>
    simp [dispatchInput, onTouchstart, relevantMode, keyboardMode_setKeyboardMode]

/-- C7 (as amended): for every wiring, every binding of `getFocusable` (none, as the
script stands, or a helper supplied from outside), every initial state
and every finite sequence of key-down, mouse-down and touch-start events, the
keyboard-mode flag after the sequence is the mode set by the most recent relevant event
(true for a Tab key-down, false for a mouse-down or touch-start), and it is the initial
flag when the sequence holds no relevant event; key-downs of other keys never change
it. -/
theorem keyboardMode_runInputs (gf : Option (Node → State → List Node)) (w : Wiring)
    (evs : List InputEvent) (s : State) :
    keyboardMode w.body (runInputs gf w evs s) =
      (lastRelevant evs).getD (keyboardMode w.body s) := by
  induction evs generalizing s with
  | nil => rfl
  | cons ev evs ih =>
    have hstep : runInputs gf w (ev :: evs) s = runInputs gf w evs (dispatchInput gf w ev s) :=
      rfl
    rw [hstep, ih, keyboardMode_dispatchInput]
    cases hl : lastRelevant evs <;> simp [lastRelevant, hl]

/-- C7 (counterexample): from the sample page with `rk-keyboard` already on the body,
the sequence made of one key-down of the key `a` holds no relevant event and ends with
the flag true; so the flag is not "true iff the most recent relevant event is a Tab
key-down" from every initial state. -/
theorem keyboardMode_initial_flag_counterexample :
    keyboardMode 0 sampleKeyboardPage = true ∧
    lastRelevant [InputEvent.keydown { key := "a", code := "KeyA", shiftKey := false }]
      = none ∧
    keyboardMode 0 (runInputs none { body := 0, modal := none }
      [InputEvent.keydown { key := "a", code := "KeyA", shiftKey := false }]
      sampleKeyboardPage) = true ∧
    keyboardMode 0 (runInputs (some getFocusable) { body := 0, modal := none }
      [InputEvent.keydown { key := "a", code := "KeyA", shiftKey := false }]
      sampleKeyboardPage) = true ∧
    ¬ (∀ (w : Wiring) (evs : List InputEvent) (s : State),
        keyboardMode w.body (runInputs none w evs s) = true ↔
          lastRelevant evs = some true) ∧
    ¬ (∀ (w : Wiring) (evs : List InputEvent) (s : State),
        keyboardMode w.body (runInputs (some getFocusable) w evs s) = true ↔
          lastRelevant evs = some true) := by
  refine ⟨by decide, by decide, by decide, by decide, ?_, ?_⟩
  · intro h
    have h1 := h { body := 0, modal := none }
      [InputEvent.keydown { key := "a", code := "KeyA", shiftKey := false }]
      sampleKeyboardPage
    exact absurd (h1.mp (by decide)) (by decide)
  · intro h
    have h1 := h { body := 0, modal := none }
      [InputEvent.keydown { key := "a", code := "KeyA", shiftKey := false }]
      sampleKeyboardPage
    exact absurd (h1.mp (by decide)) (by decide)

/-! ## E-mail revealer -/

theorem orEmpty_eq_getD (v : Option String) : orEmpty v = v.getD "" := by
  cases v with
  | none => rfl
  | some x =>
    by_cases hx : x = ""
    · simp [orEmpty, hx]
    · simp [orEmpty, hx]

mutual
/-- After the child nodes of the first `rk-email-out` element of a subtree are replaced,
that element is still the first one, with the new child nodes. -/
theorem Tree.firstOut_setFirstOut_node (new : List Tree) :
    ∀ (t : Tree) (found : List Tree), Tree.firstOut t = some found →
      Tree.firstOut (Tree.setFirstOut new t) = some new
  | .text _, found, h => by simp [Tree.firstOut] at h
  | .elem tag classList attrs children, found, h => by
    by_cases hc : "rk-email-out" ∈ classList
    · simp [Tree.setFirstOut, Tree.firstOut, hc]
    · simp only [Tree.firstOut, hc, if_false] at h
      simp only [Tree.setFirstOut, Tree.firstOut, hc, if_false]
      exact Forest.firstOut_setFirstOut new children found h
/-- The same for a list of subtrees. -/
theorem Forest.firstOut_setFirstOut (new : List Tree) :
    ∀ (ts : List Tree) (found : List Tree), Forest.firstOut ts = some found →
      Forest.firstOut (Forest.setFirstOut new ts) = some new
  | [], found, h => by simp [Forest.firstOut] at h
  | t :: ts, found, h => by
    cases ht : Tree.firstOut t with
    | some f =>
      simp only [Forest.setFirstOut, ht, Forest.firstOut]
      rw [Tree.firstOut_setFirstOut_node new t f ht]
    | none =>
      simp only [Forest.firstOut, ht] at h
      simp only [Forest.setFirstOut, ht, Forest.firstOut]
      exact Forest.firstOut_setFirstOut new ts found h
end

/-- The handler reads the address from attributes it does not write. -/
theorem emailAddr_emailClick (p : EmailPage) :
    emailAddr (emailClick p).btn = emailAddr p.btn := by
  unfold emailClick
  cases hq : queryOut p with
  | none => rfl
  | some r =>
    obtain ⟨place, found⟩ := r
    cases place <;> rfl

/-- One run of the handler with the output container outside the control: the container
is still what line 38 finds, at the same place, and holds the blank and the link. -/
theorem queryOut_emailClick_outside (p : EmailPage) (place : OutPlace) (found : List Tree)
    (hq : queryOut p = some (place, found))
    (hout : place = OutPlace.before ∨ place = OutPlace.after) :
    queryOut (emailClick p) =
      some (place, [Tree.text " ", emailLink (emailAddr p.btn)]) := by
  have hclick : emailClick p =
      { writeOut p place ([Tree.text " "] ++ [emailLink (emailAddr p.btn)]) with
        btn := { (writeOut p place
            ([Tree.text " "] ++ [emailLink (emailAddr p.btn)])).btn with
          disable := some true
          children := [Tree.text "E-Mail shown"] } } := by
    unfold emailClick
    rw [hq]
  rw [hclick]
  unfold queryOut at hq
  cases hs : p.siblings with
  | none => simp [hs] at hq
  | some sib =>
    rw [hs] at hq
    simp only at hq
    cases hb : Forest.firstOut sib.before with
    | some fb =>
      rw [hb] at hq
      simp only [Option.some.injEq, Prod.mk.injEq] at hq
      obtain ⟨hplace, -⟩ := hq
      subst hplace
      have h1 := Forest.firstOut_setFirstOut
        ([Tree.text " "] ++ [emailLink (emailAddr p.btn)]) sib.before fb hb
      simp only [queryOut, writeOut, hs, Option.map_some', h1]
      rfl
    | none =>
      rw [hb] at hq
      simp only at hq
      by_cases hc : "rk-email-out" ∈ p.btn.classList
      · simp only [hc, if_true, Option.some.injEq, Prod.mk.injEq] at hq
        obtain ⟨hplace, -⟩ := hq
        subst hplace
        simp at hout
      · simp only [hc, if_false] at hq
        cases hi : Forest.firstOut p.btn.children with
        | some fi =>
          rw [hi] at hq
          simp only [Option.some.injEq, Prod.mk.injEq] at hq
          obtain ⟨hplace, -⟩ := hq
          subst hplace
          simp at hout
        | none =>
          rw [hi] at hq
          simp only at hq
          cases ha : Forest.firstOut sib.after with
          | none => simp [ha] at hq
          | some fa =>
            rw [ha] at hq
            simp only [Option.some.injEq, Prod.mk.injEq] at hq
            obtain ⟨hplace, -⟩ := hq
            subst hplace
            have h1 := Forest.firstOut_setFirstOut
              ([Tree.text " "] ++ [emailLink (emailAddr p.btn)]) sib.after fa ha
            simp only [queryOut, writeOut, hs, Option.map_some', hb, hc, if_false, h1,
              Forest.firstOut, Tree.firstOut]
            rfl

/-- C8 (as amended): for every e-mail control whose parent holds an output container
outside the control (the element line 38 finds is neither the control itself nor inside
it), one run of the click handler leaves in that container a blank text node and exactly
one link element, whose text is `user@domain.tld` (a missing attribute read as the empty
string) and whose target is `mailto:` followed by that address; a second run of the
handler leaves the container in the same state. -/
theorem emailClick_reveals_one_link (p : EmailPage) (place : OutPlace) (found : List Tree)
    (hq : queryOut p = some (place, found))
    (hout : place = OutPlace.before ∨ place = OutPlace.after) :
    emailAddr p.btn =
      p.btn.user.getD "" ++ "@" ++ p.btn.domain.getD "" ++ "." ++ p.btn.tld.getD "" ∧
    outChildren (emailClick p) =
      some [Tree.text " ",
        Tree.elem "a" [] [("href", "mailto:" ++ emailAddr p.btn)]
          [Tree.text (emailAddr p.btn)]] ∧
    ((outChildren (emailClick p)).getD []).filter Tree.isLink =
      [Tree.elem "a" [] [("href", "mailto:" ++ emailAddr p.btn)]
        [Tree.text (emailAddr p.btn)]] ∧
    Tree.textContent (Tree.elem "a" [] [("href", "mailto:" ++ emailAddr p.btn)]
      [Tree.text (emailAddr p.btn)]) = emailAddr p.btn ∧
    outChildren (emailClick (emailClick p)) = outChildren (emailClick p) := by
  have h1 := queryOut_emailClick_outside p place found hq hout
  have h2 := queryOut_emailClick_outside (emailClick p) place _ h1 hout
  rw [emailAddr_emailClick] at h2
  refine ⟨by simp [emailAddr, orEmpty_eq_getD], ?_, ?_, ?_, ?_⟩
  · simp [outChildren, h1, emailLink]
  · simp [outChildren, h1, emailLink, Tree.isLink]
  · simp [Tree.textContent, Forest.textContent]
  · simp [outChildren, h1, h2]

/-- C8 (witness): the control `info` / `example` / `org` followed by an empty output
container. -/
theorem emailClick_reveals_one_link_witness :
    queryOut sampleEmailPage = some (OutPlace.after, []) ∧
    emailAddr sampleEmailPage.btn = "info@example.org" ∧
    outChildren (emailClick sampleEmailPage) =
      some [Tree.text " ",
        Tree.elem "a" [] [("href", "mailto:" ++ emailAddr sampleEmailPage.btn)]
          [Tree.text (emailAddr sampleEmailPage.btn)]] ∧
    outChildren (emailClick (emailClick sampleEmailPage)) =
      outChildren (emailClick sampleEmailPage) :=
  have h := emailClick_reveals_one_link sampleEmailPage OutPlace.after [] rfl (Or.inr rfl)
  ⟨rfl, by decide, h.2.1, h.2.2.2.2⟩

/-- C8 (counterexample): two controls whose parent does hold an output container. With
the container inside the control, one run of the handler fills it and line 50 then
replaces the control's children by the label: the page holds no output container and no
link any more. With the control carrying `rk-email-out` itself, the container is the
control, and after one run it holds the label and no link. -/
theorem emailClick_container_in_control_counterexample :
    queryOut sampleEmailPageInside = some (OutPlace.inside, []) ∧
    outChildren (emailClick sampleEmailPageInside) = none ∧
    (emailClick sampleEmailPageInside).btn.children = [Tree.text "E-Mail shown"] ∧
    queryOut sampleEmailPageSelf = some (OutPlace.self, [Tree.text "Show e-mail"]) ∧
    outChildren (emailClick sampleEmailPageSelf) = some [Tree.text "E-Mail shown"] ∧
    ((outChildren (emailClick sampleEmailPageSelf)).getD []).filter Tree.isLink = [] := by
  refine ⟨rfl, rfl, rfl, rfl, rfl, rfl⟩

/-- C9 (the code at the failing input): on the control `info` / `example` / `org` the
click handler writes a property named `disable` and leaves `disabled` false, so a second
click runs the handler again; and on no control does the handler change `disabled`. -/
theorem emailClick_leaves_disabled_false :
    (emailClick sampleEmailPage).btn.disabled = false ∧
    (emailClick sampleEmailPage).btn.disable = some true ∧
    (emailClick sampleEmailPage).btn.textContent = "E-Mail shown" ∧
    clickEmailControl (emailClick sampleEmailPage) =
      emailClick (emailClick sampleEmailPage) ∧
    (∀ p : EmailPage, queryOut p = none → emailClick p = p) ∧
    ∀ p : EmailPage, (emailClick p).btn.disabled = p.btn.disabled := by
  refine ⟨rfl, rfl, by decide, rfl, ?_, ?_⟩
  · intro p hp
    unfold emailClick
    rw [hp]
  · intro p
    unfold emailClick
    cases hq : queryOut p with
    | none => rfl
    | some r =>
      obtain ⟨place, found⟩ := r
      cases place <;> rfl

/-! ## PDF modal: the functions with every element bound -/

/-- With every element bound, `openPdfModal` runs to its end; the state it leaves. -/
theorem openPdfModal_boundEnv (body modal frame btnClose linkDownload linkOpen : Node)
    (dialog : Option Node) (pdfUrl : String) (triggerEl : Option Node) (s : State) :
    openPdfModal (boundEnv body modal frame btnClose linkDownload linkOpen dialog) pdfUrl
        triggerEl s =
      (State.focus (State.addClass (State.setAttribute (State.addClass
        (State.setAttribute (State.setAttribute (State.setAttribute
          { s with lastFocus := orElse triggerEl s.activeElement }
          frame "src" pdfUrl) linkDownload "href" pdfUrl) linkOpen "href" pdfUrl)
        modal "is-open") modal "aria-hiden" "false") body "rk-modal-open") btnClose,
       Completion.normal) := rfl

/-- With every element bound, `openPdfModal` establishes what the open transition is
meant to: the three targets are the URL, both markers are set, focus is on the close
control, and the trigger (or, without one, the focused element) is recorded. -/
theorem openPdfModal_boundEnv_post (body modal frame btnClose linkDownload linkOpen : Node)
    (dialog : Option Node) (pdfUrl : String) (triggerEl : Option Node) (s : State) :
    (openPdfModal (boundEnv body modal frame btnClose linkDownload linkOpen dialog) pdfUrl
        triggerEl s).2 = Completion.normal ∧
    (openPdfModal (boundEnv body modal frame btnClose linkDownload linkOpen dialog) pdfUrl
        triggerEl s).1.attr frame "src" = some pdfUrl ∧
    (openPdfModal (boundEnv body modal frame btnClose linkDownload linkOpen dialog) pdfUrl
        triggerEl s).1.attr linkDownload "href" = some pdfUrl ∧
    (openPdfModal (boundEnv body modal frame btnClose linkDownload linkOpen dialog) pdfUrl
        triggerEl s).1.attr linkOpen "href" = some pdfUrl ∧
    (openPdfModal (boundEnv body modal frame btnClose linkDownload linkOpen dialog) pdfUrl
        triggerEl s).1.hasClass modal "is-open" = true ∧
    (openPdfModal (boundEnv body modal frame btnClose linkDownload linkOpen dialog) pdfUrl
        triggerEl s).1.hasClass body "rk-modal-open" = true ∧
    (openPdfModal (boundEnv body modal frame btnClose linkDownload linkOpen dialog) pdfUrl
        triggerEl s).1.activeElement = some btnClose ∧
    (openPdfModal (boundEnv body modal frame btnClose linkDownload linkOpen dialog) pdfUrl
        triggerEl s).1.lastFocus = orElse triggerEl s.activeElement := by
  rw [openPdfModal_boundEnv]
  refine ⟨rfl, ?_, ?_, ?_, ?_, ?_, rfl, rfl⟩
  · simp only [attr_focus, attr_addClass]
    rw [attr_setAttribute_of_key_ne _ _ _ _ _ _ (by decide)]
    apply attr_setAttribute_same_value
    apply attr_setAttribute_same_value
    exact attr_setAttribute_self _ _ _ _
  · simp only [attr_focus, attr_addClass]
    rw [attr_setAttribute_of_key_ne _ _ _ _ _ _ (by decide)]
    apply attr_setAttribute_same_value
    exact attr_setAttribute_self _ _ _ _
  · simp only [attr_focus, attr_addClass]
    rw [attr_setAttribute_of_key_ne _ _ _ _ _ _ (by decide)]
    exact attr_setAttribute_self _ _ _ _
  · rw [hasClass_eq_true_iff]
    simp [mem_classList_addClass]
  · rw [hasClass_eq_true_iff]
    simp [mem_classList_addClass]

/-- With the frame and the container bound, `closePdfModal` runs to its end; the state
it leaves. -/
theorem closePdfModal_post (env : Env) (modal frame : Node) (s : State)
    (hm : env.modal = some modal) (hf : env.frame = some frame) :
    (closePdfModal env s).2 = Completion.normal ∧
    (closePdfModal env s).1.attr frame "src" = some "" ∧
    (closePdfModal env s).1.attr modal "aria-hidden" = some "true" ∧
    (closePdfModal env s).1.hasClass modal "is-open" = false ∧
    (closePdfModal env s).1.hasClass env.body "rk-modal-open" = false ∧
    (closePdfModal env s).1.lastFocus = none ∧
    (closePdfModal env s).1.activeElement = orElse s.lastFocus s.activeElement := by
  have hnot : ∀ (t : State) (el : Node) (c : String), ¬ (c ∈ t.classList el) →
      t.hasClass el c = false := by
    intro t el c h
    simp [State.hasClass, h]
  have hopen : ¬ ("is-open" ∈ (closePdfModal env s).1.classList modal) := by
    unfold closePdfModal
    rw [hm, hf]
    cases hl : s.lastFocus <;> simp [hl, mem_classList_removeClass]
  have hbody : ¬ ("rk-modal-open" ∈ (closePdfModal env s).1.classList env.body) := by
    unfold closePdfModal
    rw [hm, hf]
    cases hl : s.lastFocus <;> simp [hl, mem_classList_removeClass]
  refine ⟨?_, ?_, ?_, hnot _ _ _ hopen, hnot _ _ _ hbody, ?_, ?_⟩
  · unfold closePdfModal
    rw [hm, hf]
  · unfold closePdfModal
    rw [hm, hf]
    cases hl : s.lastFocus <;> simp [hl, attr_setAttribute_self]
  · unfold closePdfModal
    rw [hm, hf]
    cases hl : s.lastFocus <;>
      simp only [hl, lastFocus_setAttribute, lastFocus_removeClass, attr_focus] <;>
      rw [attr_setAttribute_of_key_ne _ _ _ _ _ _ (by decide)] <;>
      simp only [attr_removeClass] <;>
      exact attr_setAttribute_self _ _ _ _
  · unfold closePdfModal
    rw [hm, hf]
  · unfold closePdfModal
    rw [hm, hf]
    cases hl : s.lastFocus <;> simp [hl, orElse]

/-- With every element bound, what `openPdfModal` establishes, for an arbitrary
environment. -/
theorem openPdfModal_post (env : Env) (modal frame btnClose linkDownload linkOpen : Node)
    (pdfUrl : String) (triggerEl : Option Node) (s : State)
    (hm : env.modal = some modal) (hf : env.frame = some frame)
    (hc : env.btnClose = some btnClose) (hd : env.linkDownload = some linkDownload)
    (ho : env.linkOpen = some linkOpen) :
    (openPdfModal env pdfUrl triggerEl s).2 = Completion.normal ∧
    (openPdfModal env pdfUrl triggerEl s).1.attr frame "src" = some pdfUrl ∧
    (openPdfModal env pdfUrl triggerEl s).1.attr linkDownload "href" = some pdfUrl ∧
    (openPdfModal env pdfUrl triggerEl s).1.attr linkOpen "href" = some pdfUrl ∧
    (openPdfModal env pdfUrl triggerEl s).1.hasClass modal "is-open" = true ∧
    (openPdfModal env pdfUrl triggerEl s).1.hasClass env.body "rk-modal-open" = true ∧
    (openPdfModal env pdfUrl triggerEl s).1.activeElement = some btnClose ∧
    (openPdfModal env pdfUrl triggerEl s).1.lastFocus = orElse triggerEl s.activeElement := by
  obtain ⟨body, m, f, c, d, o, dialog⟩ := env
  simp only at hm hf hc hd ho
  subst hm hf hc hd ho
  exact openPdfModal_boundEnv_post body modal frame btnClose linkDownload linkOpen dialog
    pdfUrl triggerEl s

/-- A click that reaches the document's listener with a PDF link on its path calls
`openPdfModal` with that link as the trigger. -/
theorem onClickDocument_of_link (env : Env) (e : ClickEvent) (a : Node) (s : State)
    (ha : closestPdfLink s e = some a) :
    (onClickDocument env e s).st =
        (openPdfModal env ((s.attr a "href").getD "null") (some a) s).1 ∧
    (onClickDocument env e s).completion =
        (openPdfModal env ((s.attr a "href").getD "null") (some a) s).2 ∧
    (onClickDocument env e s).defaultPrevented = true := by
  unfold onClickDocument
  rw [ha]
  exact ⟨rfl, rfl, rfl⟩

/-- A click with no PDF link on its path changes nothing, whatever listeners are
attached. -/
theorem dispatchClick_of_no_link (w : Wiring) (e : ClickEvent) (s : State)
    (h : closestPdfLink s e = none) :
    (dispatchClick w e s).st = s ∧ (dispatchClick w e s).defaultPrevented = false ∧
      (dispatchClick w e s).completion = Completion.normal := by
  unfold dispatchClick
  cases w.modal with
  | none => exact ⟨rfl, rfl, rfl⟩
  | some env =>
    have hclose : (match env.btnClose with
        | some btnClose => if btnClose ∈ e.path then onClickClose s else s
        | none => s) = s := by
      cases env.btnClose with
      | none => rfl
      | some b => simp [onClickClose]
    simp only [hclose]
    split
    · exact ⟨rfl, rfl, rfl⟩
    · unfold onClickDocument
      rw [h]
      exact ⟨rfl, rfl, rfl⟩

/-- While the container carries `is-open`, an Escape key-down runs `closePdfModal` and
cancels the default action. -/
theorem onKeydownModal_escape (gf : Option (Node → State → List Node)) (env : Env)
    (modal : Node)
    (code : String) (shift : Bool) (s : State) (hm : env.modal = some modal)
    (hopen : s.hasClass modal "is-open" = true) :
    (onKeydownModal gf env { key := "Escape", code := code, shiftKey := shift } s).st =
        (closePdfModal env s).1 ∧
    (onKeydownModal gf env { key := "Escape", code := code, shiftKey := shift }
        s).completion = (closePdfModal env s).2 ∧
    (onKeydownModal gf env { key := "Escape", code := code, shiftKey := shift }
        s).defaultPrevented = true := by
  unfold onKeydownModal
  rw [hm]
  simp [hopen]

/-! ## PDF modal: the startup guard -/

/-- The guard of line 66 lets the script go on exactly when the container, the close
control and both links were found and the frame was not. -/
theorem guardReturns_eq_false_iff (d : Lookups) :
    guardReturns d = false ↔
      d.modal.isSome = true ∧ d.frame = none ∧ d.btnClose.isSome = true ∧
        d.linkDownload.isSome = true ∧ d.linkOpen.isSome = true := by
  unfold guardReturns
  cases d.modal <;> cases d.frame <;> cases d.btnClose <;> cases d.linkDownload <;>
    cases d.linkOpen <;> simp

/-- Wherever the script attached the modal's listeners, their `frame` is `null`. -/
theorem script_modal_frame (d : Lookups) (w : Wiring) (env : Env) (hw : script d = some w)
    (henv : w.modal = some env) : env.frame = none := by
  unfold script at hw
  cases hb : d.body with
  | none => simp [hb] at hw
  | some body =>
    by_cases hg : guardReturns d = true
    · simp [hb, hg] at hw
      subst hw
      simp at henv
    · have hg2 : guardReturns d = false := by simpa using hg
      simp [hb, hg2] at hw
      subst hw
      simp at henv
      subst henv
      exact ((guardReturns_eq_false_iff d).mp hg2).2.1

/-- Wherever the script attached the modal's listeners, their `modal` is an element. -/
theorem script_modal_bound (d : Lookups) (w : Wiring) (env : Env) (hw : script d = some w)
    (henv : w.modal = some env) : env.modal.isSome = true := by
  unfold script at hw
  cases hb : d.body with
  | none => simp [hb] at hw
  | some body =>
    by_cases hg : guardReturns d = true
    · simp [hb, hg] at hw
      subst hw
      simp at henv
    · have hg2 : guardReturns d = false := by simpa using hg
      simp [hb, hg2] at hw
      subst hw
      simp at henv
      subst henv
      exact ((guardReturns_eq_false_iff d).mp hg2).1

/-- With `frame` unbound and the container bound, `closePdfModal` removes the markers,
then stops at line 91 with a `TypeError`: the viewer source is not written, focus is not
restored and the recorded last focus is not cleared. -/
theorem closePdfModal_of_frame_none (env : Env) (modal : Node) (s : State)
    (hm : env.modal = some modal) (hf : env.frame = none) :
    (closePdfModal env s).2 = Completion.typeError 91 ∧
    (closePdfModal env s).1.lastFocus = s.lastFocus ∧
    (closePdfModal env s).1.activeElement = s.activeElement ∧
    ∀ el : Node, (closePdfModal env s).1.attr el "src" = s.attr el "src" := by
  unfold closePdfModal
  rw [hm, hf]
  refine ⟨rfl, rfl, rfl, ?_⟩
  intro el
  simp only [attr_removeClass]
  exact attr_setAttribute_of_key_ne _ _ _ _ _ _ (by decide)

/-- With `frame` unbound, `openPdfModal` records the last focus and stops at line 75
with a `TypeError`. -/
theorem openPdfModal_of_frame_none (env : Env) (pdfUrl : String) (triggerEl : Option Node)
    (s : State) (hf : env.frame = none) :
    openPdfModal env pdfUrl triggerEl s =
      ({ s with lastFocus := orElse triggerEl s.activeElement }, Completion.typeError 75) := by
  unfold openPdfModal
  rw [hf]

/-- C1 (the code at the failing input): on the page without the embedded frame, the only
kind of page on which the script attaches the click listener, a click on the menu link
`/menu.pdf` stops in `openPdfModal` at line 75 with a `TypeError`: default cancelled, the
link recorded as last focus, no download or open-in-tab target written, no marker set,
focus still on the search field. On the page with all five elements no listener is
attached and the click changes nothing. In general, wherever the script attached the
modal's listeners, every call of `openPdfModal` ends at line 75 in that way. -/
theorem openPdfModal_never_opens :
    script framelessLookups = some { body := 0, modal := some framelessEnv } ∧
    (dispatchClick { body := 0, modal := some framelessEnv } clickMenuLink
        samplePage).completion = Completion.typeError 75 ∧
    (dispatchClick { body := 0, modal := some framelessEnv } clickMenuLink
        samplePage).defaultPrevented = true ∧
    (dispatchClick { body := 0, modal := some framelessEnv } clickMenuLink
        samplePage).st.lastFocus = some 7 ∧
    (dispatchClick { body := 0, modal := some framelessEnv } clickMenuLink
        samplePage).st.attr 4 "href" = some "#" ∧
    (dispatchClick { body := 0, modal := some framelessEnv } clickMenuLink
        samplePage).st.attr 5 "href" = some "#" ∧
    (dispatchClick { body := 0, modal := some framelessEnv } clickMenuLink
        samplePage).st.hasClass 1 "is-open" = false ∧
    (dispatchClick { body := 0, modal := some framelessEnv } clickMenuLink
        samplePage).st.hasClass 0 "rk-modal-open" = false ∧
    (dispatchClick { body := 0, modal := some framelessEnv } clickMenuLink
        samplePage).st.activeElement = some 8 ∧
    script fullLookups = some { body := 0, modal := none } ∧
    (dispatchClick { body := 0, modal := none } clickMenuLink samplePage).defaultPrevented
        = false ∧
    (dispatchClick { body := 0, modal := none } clickMenuLink samplePage).st.attr 2 "src"
        = none ∧
    (dispatchClick { body := 0, modal := none } clickMenuLink samplePage).st.hasClass 1
        "is-open" = false ∧
    (∀ (d : Lookups) (w : Wiring) (env : Env), script d = some w → w.modal = some env →
      ∀ (pdfUrl : String) (triggerEl : Option Node) (s : State),
        openPdfModal env pdfUrl triggerEl s =
          ({ s with lastFocus := orElse triggerEl s.activeElement },
            Completion.typeError 75)) := by
  repeat' apply And.intro
  all_goals try decide
  intro d w env hw henv pdfUrl triggerEl s
  exact openPdfModal_of_frame_none env pdfUrl triggerEl s (script_modal_frame d w env hw henv)

/-- C5 (the code at the failing input): the guard of line 66 tests `frame` where it
tests the negation for the other four elements. On the page with all five elements the
script returns there: no modal listener is attached, and a click on the menu link
`/menu.pdf` is not cancelled, writes none of the three targets and opens nothing. On the
page that lacks the frame and has the other four, the listeners are attached. -/
theorem guard_returns_when_all_present :
    guardReturns fullLookups = true ∧
    script fullLookups = some { body := 0, modal := none } ∧
    (dispatchClick { body := 0, modal := none } clickMenuLink samplePage).defaultPrevented
        = false ∧
    (dispatchClick { body := 0, modal := none } clickMenuLink samplePage).st.attr 2 "src"
        = none ∧
    (dispatchClick { body := 0, modal := none } clickMenuLink samplePage).st.attr 4 "href"
        = some "#" ∧
    (dispatchClick { body := 0, modal := none } clickMenuLink samplePage).st.attr 5 "href"
        = some "#" ∧
    (dispatchClick { body := 0, modal := none } clickMenuLink samplePage).st.hasClass 1
        "is-open" = false ∧
    guardReturns framelessLookups = false ∧
    script framelessLookups = some { body := 0, modal := some framelessEnv } ∧
    (∀ d : Lookups, d.modal.isSome = true → d.frame.isSome = true →
      d.btnClose.isSome = true → d.linkDownload.isSome = true → d.linkOpen.isSome = true →
      guardReturns d = true) := by
  refine ⟨by decide, by decide, by decide, by decide, by decide, by decide, by decide,
    by decide, by decide, ?_⟩
  intro d _ hf _ _ _
  simp [guardReturns, hf]

/-! ## PDF modal: open, close and the key-down listener -/

/-- C2 (the code at the failing input): on the closed sample page without the embedded
frame, the only kind of page on which the script attaches the modal's listeners, the
search field `8` holds focus and the menu link `7` is clicked. The click stops in
`openPdfModal` at line 75 with the link recorded as last focus and the modal not open;
the Escape key-down that follows finds the container without `is-open` and returns, so
the recorded last focus is still the link, not cleared, and no viewer source was ever
written. `closePdfModal` called directly removes the markers and stops at line 91 with a
`TypeError`, before the viewer source is written and the last focus is cleared; it does
so on every wiring the script builds. On the page with all five elements no listener is
attached and click and Escape change nothing. -/
theorem click_then_close_keeps_last_focus :
    script framelessLookups = some framelessWiring ∧
    samplePage.activeElement = some 8 ∧
    samplePage.hasClass 1 "is-open" = false ∧
    closestPdfLink samplePage clickMenuLink = some 7 ∧
    (dispatchClick framelessWiring clickMenuLink samplePage).completion
      = Completion.typeError 75 ∧
    (dispatchClick framelessWiring clickMenuLink samplePage).st.lastFocus = some 7 ∧
    (dispatchClick framelessWiring clickMenuLink samplePage).st.hasClass 1 "is-open"
      = false ∧
    (dispatchKeydown none framelessWiring escapeKey
      (dispatchClick framelessWiring clickMenuLink samplePage).st).completion
      = Completion.normal ∧
    (dispatchKeydown none framelessWiring escapeKey
      (dispatchClick framelessWiring clickMenuLink samplePage).st).defaultPrevented
      = false ∧
    (dispatchKeydown none framelessWiring escapeKey
      (dispatchClick framelessWiring clickMenuLink samplePage).st).st.lastFocus
      = some 7 ∧
    (dispatchKeydown none framelessWiring escapeKey
      (dispatchClick framelessWiring clickMenuLink samplePage).st).st.attr 2 "src"
      = none ∧
    (closePdfModal framelessEnv
      (dispatchClick framelessWiring clickMenuLink samplePage).st).2
      = Completion.typeError 91 ∧
    (closePdfModal framelessEnv
      (dispatchClick framelessWiring clickMenuLink samplePage).st).1.lastFocus
      = some 7 ∧
    (closePdfModal framelessEnv
      (dispatchClick framelessWiring clickMenuLink samplePage).st).1.attr 2 "src"
      = none ∧
    script fullLookups = some fullWiring ∧
    (dispatchClick fullWiring clickMenuLink samplePage).defaultPrevented = false ∧
    (dispatchKeydown none fullWiring escapeKey
      (dispatchClick fullWiring clickMenuLink samplePage).st).st.attr 2 "src" = none ∧
    (dispatchKeydown none fullWiring escapeKey
      (dispatchClick fullWiring clickMenuLink samplePage).st).defaultPrevented = false ∧
    (∀ (d : Lookups) (w : Wiring) (env : Env), script d = some w → w.modal = some env →
      ∀ s : State,
        (closePdfModal env s).2 = Completion.typeError 91 ∧
        (closePdfModal env s).1.lastFocus = s.lastFocus ∧
        (closePdfModal env s).1.activeElement = s.activeElement ∧
        ∀ el : Node, (closePdfModal env s).1.attr el "src" = s.attr el "src") := by
  repeat' apply And.intro
  all_goals try decide
  intro d w env hw henv s
  have hm := script_modal_bound d w env hw henv
  have hf := script_modal_frame d w env hw henv
  cases hmod : env.modal with
  | none => simp [hmod] at hm
  | some modal => exact closePdfModal_of_frame_none env modal s hmod hf

/-- C3 (the code at the failing input): on the open sample page, whatever listeners the
script attached, a click on the close control and a click on the backdrop both leave the
state as it was, the container still carrying `is-open`: the close control's listener
has an empty body and no listener closes on a backdrop click. -/
theorem close_control_and_backdrop_clicks_keep_open (w : Wiring) :
    sampleOpenPage.hasClass 1 "is-open" = true ∧
    (dispatchClick w clickCloseControl sampleOpenPage).st = sampleOpenPage ∧
    (dispatchClick w clickBackdrop sampleOpenPage).st = sampleOpenPage ∧
    (dispatchClick w clickCloseControl sampleOpenPage).st.hasClass 1 "is-open" = true ∧
    (dispatchClick w clickBackdrop sampleOpenPage).st.hasClass 1 "is-open" = true := by
  have h1 := (dispatchClick_of_no_link w clickCloseControl sampleOpenPage (by decide)).1
  have h2 := (dispatchClick_of_no_link w clickBackdrop sampleOpenPage (by decide)).1
  refine ⟨by decide, h1, h2, ?_, ?_⟩
  · rw [h1]; decide
  · rw [h2]; decide

/-- C4 (the code at the failing input): for every environment, every binding of
`getFocusable` and every state, a Tab key press (key `Tab`, code `Tab`), with or without
Shift, leaves the state as it was and does not cancel the default action: line 127
returns as soon as `code === 'Tab'`. In particular on the open sample page with
focusables `[3, 4, 5]`, Tab on `5` does not move focus to `3`, and Shift+Tab on `3` does
not move focus to `5`. -/
theorem tab_keydown_returns_before_trap (gf : Option (Node → State → List Node))
    (env : Env) (shift : Bool) (s : State) :
    (onKeydownModal gf env { key := "Tab", code := "Tab", shiftKey := shift } s).st = s ∧
    (onKeydownModal gf env { key := "Tab", code := "Tab", shiftKey := shift }
      s).defaultPrevented = false ∧
    getFocusable 1 sampleOpenPage = [3, 4, 5] ∧
    (onKeydownModal (some getFocusable) fullEnv
      { key := "Tab", code := "Tab", shiftKey := false }
      sampleOpenPageOnLast).st.activeElement = some 5 ∧
    (onKeydownModal (some getFocusable) fullEnv
      { key := "Tab", code := "Tab", shiftKey := true }
      sampleOpenPage).st.activeElement = some 3 ∧
    (onKeydownModal (some (fun _ _ => [])) fullEnv
      { key := "Tab", code := "Tab", shiftKey := false }
      sampleOpenPage).defaultPrevented = false ∧
    (onKeydownModal none framelessEnv { key := "Tab", code := "Tab", shiftKey := false }
      sampleOpenPageOnLast).st.activeElement = some 5 ∧
    (onKeydownModal none framelessEnv { key := "Tab", code := "Tab", shiftKey := false }
      sampleOpenPageOnLast).defaultPrevented = false ∧
    (onKeydownModal none framelessEnv { key := "Tab", code := "Tab", shiftKey := true }
      sampleOpenPage).st.activeElement = some 3 := by
  refine ⟨?_, ?_, by decide, by decide, by decide, by decide, by decide, by decide,
    by decide⟩
  · unfold onKeydownModal
    cases env.modal with
    | none => rfl
    | some modal =>
      simp only
      split
      · rfl
      · simp
  · unfold onKeydownModal
    cases env.modal with
    | none => rfl
    | some modal =>
      simp only
      split
      · rfl
      · simp

/-- C6 (the code at the failing input): `openPdfModal` never writes the attribute
`aria-hidden` of any element (line 80 writes one named `aria-hiden`). On the sample
page, with all five elements bound, the container after `openPdfModal` carries `is-open`
while its `aria-hidden` is still `"true"`. -/
theorem openPdfModal_keeps_aria_hidden (env : Env) (pdfUrl : String)
    (triggerEl : Option Node) (s : State) (el : Node) :
    (openPdfModal env pdfUrl triggerEl s).1.attr el "aria-hidden" = s.attr el "aria-hidden" ∧
    samplePage.hasClass 1 "is-open" = false ∧
    samplePage.attr 1 "aria-hidden" = some "true" ∧
    (openPdfModal fullEnv "/menu.pdf" (some 7) samplePage).2 = Completion.normal ∧
    (openPdfModal fullEnv "/menu.pdf" (some 7) samplePage).1.hasClass 1 "is-open" = true ∧
    (openPdfModal fullEnv "/menu.pdf" (some 7) samplePage).1.attr 1 "aria-hidden"
      = some "true" ∧
    (openPdfModal fullEnv "/menu.pdf" (some 7) samplePage).1.attr 1 "aria-hiden"
      = some "false" := by
  refine ⟨?_, by decide, by decide, by decide, by decide, by decide, by decide⟩
  unfold openPdfModal
  cases env.frame with
  | none => rfl
  | some frame =>
    cases env.linkDownload with
    | none => exact attr_setAttribute_of_key_ne _ _ _ _ _ _ (by decide)
    | some linkDownload =>
      cases env.linkOpen with
      | none =>
        simp only
        rw [attr_setAttribute_of_key_ne _ _ _ _ _ _ (by decide)]
        exact attr_setAttribute_of_key_ne _ _ _ _ _ _ (by decide)
      | some linkOpen =>
        cases env.modal with
        | none =>
          simp only
          rw [attr_setAttribute_of_key_ne _ _ _ _ _ _ (by decide),
            attr_setAttribute_of_key_ne _ _ _ _ _ _ (by decide)]
          exact attr_setAttribute_of_key_ne _ _ _ _ _ _ (by decide)
        | some modal =>
          cases env.btnClose <;>
          · simp only [attr_focus, attr_addClass]
            rw [attr_setAttribute_of_key_ne _ _ _ _ _ _ (by decide)]
            simp only [attr_addClass]
            rw [attr_setAttribute_of_key_ne _ _ _ _ _ _ (by decide),
              attr_setAttribute_of_key_ne _ _ _ _ _ _ (by decide)]
            exact attr_setAttribute_of_key_ne _ _ _ _ _ _ (by decide)

/-- C10 (the code at the failing input): on the open sample page with focus on `5`, an
Enter key-down (neither Escape nor Tab) passes line 127, which returns only for the code
`Tab`, and reaches the call of `getFocusable` at line 129; the script defines no such
function, so the listener ends with a `ReferenceError`, default not cancelled and focus
still on `5`. It does so for every key-down on an open modal whose key and code are not
Escape and whose code is not Tab. With the frame unbound, as on every page where the
listener exists, an Escape key-down on the open page ends with a `TypeError` at line 91.
While the container does not carry `is-open` the listener changes nothing and ends
normally. -/
theorem keydown_other_keys_raise :
    (onKeydownModal none framelessEnv enterKey sampleOpenPageOnLast).completion
      = Completion.referenceError 129 ∧
    (onKeydownModal none framelessEnv enterKey sampleOpenPageOnLast).defaultPrevented
      = false ∧
    (onKeydownModal none framelessEnv enterKey sampleOpenPageOnLast).st.activeElement
      = some 5 ∧
    (dispatchKeydown none framelessWiring enterKey sampleOpenPageOnLast).completion
      = Completion.referenceError 129 ∧
    (∀ (env : Env) (modal : Node) (e : KeyEvent) (s : State), env.modal = some modal →
      s.hasClass modal "is-open" = true → e.key ≠ "Escape" → e.code ≠ "Escape" →
      e.code ≠ "Tab" →
      (onKeydownModal none env e s).completion = Completion.referenceError 129 ∧
      (onKeydownModal none env e s).st = s ∧
      (onKeydownModal none env e s).defaultPrevented = false) ∧
    (onKeydownModal none framelessEnv escapeKey sampleOpenPage).completion
      = Completion.typeError 91 ∧
    (dispatchKeydown none framelessWiring escapeKey sampleOpenPage).completion
      = Completion.typeError 91 ∧
    (∀ (gf : Option (Node → State → List Node)) (env : Env) (modal : Node) (e : KeyEvent)
      (s : State), env.modal = some modal → s.hasClass modal "is-open" = false →
      (onKeydownModal gf env e s).st = s ∧ (onKeydownModal gf env e s).defaultPrevented = false
        ∧ (onKeydownModal gf env e s).completion = Completion.normal) := by
  refine ⟨by decide, by decide, by decide, by decide, ?_, by decide, by decide, ?_⟩
  · intro env modal e s hm hopen hk hc ht
    unfold onKeydownModal
    rw [hm]
    simp [hopen, hk, hc, ht, boolStrictEqString]
  · intro gf env modal e s hm hclosed
    unfold onKeydownModal
    rw [hm]
    simp [hclosed]

end Rk
